import Mathlib

/-!
Verification development for the restate-obstore gateway.

The repository exposes object-storage operations (copy, delete, get, head,
list, put, rename, sign) as durably-executed remote procedures.  This file
embeds the request-dispatch and store-resolution layer:

* `parseModel` and the per-request schemas embed the pydantic request models
  of `bound.py` / `unbound.py` (pydantic defaults: unknown fields are
  silently ignored, plain `str` fields accept any string).
* `ObjectStore`, `clientDelete`, `clientCopy`, ... model the external
  `obstore` storage client; those definitions carry doc comments naming the
  spec sections they come from since the client is not part of this
  repository.
* `copy`, `delete`, `get`, `head`, `listOp`, `put`, `rename`, `sign` embed
  the storage-facade functions of `bound.py`; operations are instrumented to
  emit a trace of the calls they make against the backend.
* `create_executor` / `create_store` embed the capability classification of
  `bound.py` / `store.py`; `ucopy` ... `usign` embed the per-request
  resolution methods of `unbound.Executor`; `register_bound_service`,
  `register_unbound_service`, `boundHandle` and `unboundHandle` embed the
  registrar of `restate.py`, with `runTyped` modelling the host's
  checkpointed-step primitive `ctx.run_typed` by tagging every emitted event
  with the enclosing step name.
-/

namespace RestateObstore

/-! ### JSON-like values and pydantic-style validation (Operation Schemas) -/

/-- Inputs to request validation: a JSON-like value.  String arrays are the
only arrays the schemas accept, so they are modelled directly. -/
inductive JValue where
  | str (s : String)
  | bool (b : Bool)
  | num (n : Int)
  | arr (xs : List String)
deriving DecidableEq, Repr

/-- Field types appearing in the request models of `bound.py` and
`unbound.py`. -/
inductive FieldType where
  | str
  | boolean
  | strOrStrList
  | httpMethod
  | timedelta
  | url
deriving DecidableEq, Repr

/-- One declared field of a pydantic request model: external key (the alias
when one is declared, e.g. `from` for `from_`), type, and default value for
optional fields. -/
structure FieldSpec where
  key : String
  type : FieldType
  default : Option JValue
deriving DecidableEq, Repr

/-- Lookup of a key in a raw request object (first occurrence wins). -/
def lookupField : List (String × JValue) → String → Option JValue
  | [], _ => none
  | (k, v) :: rest, key => if k = key then some v else lookupField rest key

/-- Values of the `HttpMethod` enum of `bound.py`. -/
def httpMethods : List String :=
  ["GET", "PUT", "POST", "HEAD", "PATCH", "TRACE", "DELETE", "OPTIONS", "CONNECT"]

/-- Prefix test on the underlying character lists (structural, so concrete
instances evaluate inside the kernel). -/
def strHasPrefix (s pre : String) : Bool :=
  pre.data.isPrefixOf s.data

/-- Split of a character list at the first occurrence of `://`. -/
def breakOnProto : List Char → Option (List Char × List Char)
  | [] => none
  | c :: rest =>
    if ([':', '/', '/'] : List Char).isPrefixOf (c :: rest) then
      some ([], rest.drop 2)
    else
      match breakOnProto rest with
      | some (pre, post) => some (c :: pre, post)
      | none => none

/-- Modelled from the spec: pydantic's `AnyUrl` is external; §4.1 requires an
unparsable store URL to fail validation.  A URL is taken to be valid when it
splits as nonempty scheme `://` nonempty remainder. -/
def urlValid (s : String) : Bool :=
  match breakOnProto s.data with
  | some (scheme, rest) => (¬ scheme.isEmpty) && (¬ rest.isEmpty)
  | none => false

/-- Type acceptance for a field value, following pydantic validation of the
annotations used in the source (`str`, `bool`, `str | Sequence[str]`,
`HttpMethod`, `timedelta` for numeric inputs, `AnyUrl`). -/
def typeOk : FieldType → JValue → Bool
  | .str, .str _ => true
  | .boolean, .bool _ => true
  | .strOrStrList, .str _ => true
  | .strOrStrList, .arr _ => true
  | .httpMethod, .str s => httpMethods.contains s
  | .timedelta, .num _ => true
  | .url, .str s => urlValid s
  | _, _ => false

/-- Validation errors: a missing required field or a field of the wrong
shape. -/
inductive ValErr where
  | missing (key : String)
  | wrongType (key : String)
deriving DecidableEq, Repr

/-- Validation of a raw request against a schema, following pydantic with its
default configuration (the source models never set `extra`, so pydantic's
default applies: keys not declared by the schema are silently ignored).
Required fields must be present with an acceptable shape; optional fields
fall back to their declared default. -/
def parseModel (schema : List FieldSpec) (raw : List (String × JValue)) :
    Except ValErr (List (String × JValue)) :=
  match schema with
  | [] => Except.ok []
  | fs :: rest =>
    match lookupField raw fs.key with
    | some v =>
      if typeOk fs.type v then
        (parseModel rest raw).map (fun tl => (fs.key, v) :: tl)
      else
        Except.error (ValErr.wrongType fs.key)
    | none =>
      match fs.default with
      | some d => (parseModel rest raw).map (fun tl => (fs.key, d) :: tl)
      | none => Except.error (ValErr.missing fs.key)

/-- Schema of `bound.CopyRequest`: `from` (aliased), `to`, and `overwrite`
defaulting to `true`. -/
def copyRequestSchema : List FieldSpec :=
  [⟨"from", FieldType.str, none⟩,
   ⟨"to", FieldType.str, none⟩,
   ⟨"overwrite", FieldType.boolean, some (JValue.bool true)⟩]

/-- Schema of `bound.DeleteRequest`: `paths` is a path or sequence of
paths. -/
def deleteRequestSchema : List FieldSpec :=
  [⟨"paths", FieldType.strOrStrList, none⟩]

/-- Schema of `bound.GetRequest`. -/
def getRequestSchema : List FieldSpec :=
  [⟨"path", FieldType.str, none⟩]

/-- Schema of `bound.HeadRequest`. -/
def headRequestSchema : List FieldSpec :=
  [⟨"path", FieldType.str, none⟩]

/-- Schema of `bound.ListRequest` (no fields). -/
def listRequestSchema : List FieldSpec := []

/-- Schema of `bound.PutRequest` (no fields). -/
def putRequestSchema : List FieldSpec := []

/-- Schema of `bound.RenameRequest` (same fields as copy). -/
def renameRequestSchema : List FieldSpec :=
  [⟨"from", FieldType.str, none⟩,
   ⟨"to", FieldType.str, none⟩,
   ⟨"overwrite", FieldType.boolean, some (JValue.bool true)⟩]

/-- Schema of `bound.SignRequest`: HTTP method, path(s), expiry. -/
def signRequestSchema : List FieldSpec :=
  [⟨"method", FieldType.httpMethod, none⟩,
   ⟨"paths", FieldType.strOrStrList, none⟩,
   ⟨"expires_in", FieldType.timedelta, none⟩]

/-- Subclassing in `unbound.py`: each unbound request model inherits the
bound model's fields and adds a required `url` field. -/
def withUrlField (base : List FieldSpec) : List FieldSpec :=
  base ++ [⟨"url", FieldType.url, none⟩]

/-- All request schemas of both modes, mirroring the eight request models of
`bound.py` followed by their `unbound.py` subclasses. -/
def allSchemas : List (List FieldSpec) :=
  [copyRequestSchema, deleteRequestSchema, getRequestSchema, headRequestSchema,
   listRequestSchema, putRequestSchema, renameRequestSchema, signRequestSchema,
   withUrlField copyRequestSchema, withUrlField deleteRequestSchema,
   withUrlField getRequestSchema, withUrlField headRequestSchema,
   withUrlField listRequestSchema, withUrlField putRequestSchema,
   withUrlField renameRequestSchema, withUrlField signRequestSchema]

/-- Keys declared by a schema. -/
def declaredKeys (schema : List FieldSpec) : List String :=
  schema.map (fun fs => fs.key)

/-! ### Store model (the external obstore client) -/

/-- Concrete backend classes of the external obstore client that this
repository distinguishes (`S3Store`, `GCSStore`, `AzureStore` are the union
`SignCapableStore` of `bound.py`; `LocalStore`, `MemoryStore`, `HTTPStore`
are the remaining backends). -/
inductive StoreKind where
  | s3
  | gcs
  | azure
  | local
  | memory
  | http
deriving DecidableEq, Repr

/-- Resolved store handle.  `id` models Python object identity (each call to
the obstore constructors returns a fresh instance); `contents` models the
backend state as a list of (path, size) pairs for the client model below. -/
structure ObjectStore where
  kind : StoreKind
  id : Nat
  contents : List (String × Nat)
deriving DecidableEq, Repr

/-- Capability classification of a backend kind: exactly the closed set
`AzureStore | GCSStore | S3Store` of `bound.py` line 206. -/
def isSignCapable : StoreKind → Bool
  | .s3 => true
  | .gcs => true
  | .azure => true
  | _ => false

/-- Membership test mirroring `isinstance(store, SignCapableStore)`. -/
def isSignCapableStore (s : ObjectStore) : Bool :=
  isSignCapable s.kind

/-- Class name of a backend kind, as it appears in the obstore classes. -/
def kindName : StoreKind → String
  | .s3 => "S3"
  | .gcs => "GCS"
  | .azure => "Azure"
  | .local => "Local"
  | .memory => "Memory"
  | .http => "HTTP"

/-- Printable identity of the concrete store, as interpolated by the
`f-string` of `unbound.Executor.sign`. -/
def storeRepr (s : ObjectStore) : String :=
  kindName s.kind ++ ("Store")

/-- Presence of a path in the modelled backend state. -/
def hasPath (store : ObjectStore) (p : String) : Bool :=
  store.contents.any (fun c => c.1 = p)

/-- Per-location outcome of a delete, per §4.2 of the spec. -/
inductive DeleteOutcome where
  | deleted (path : String)
  | notFoundAt (path : String)
deriving DecidableEq, Repr

/-- Error kinds surfaced by the facade and executors (§7 taxonomy). -/
inductive Err where
  | notImplemented
  | notFound (path : String)
  | conflict (path : String)
  | notSignable (message : String)
  | resolutionError (url : String)
deriving DecidableEq, Repr

/-- Modelled from the spec: the external storage client's delete (§6: the
client must raise a distinguishable not-found condition; §4.2: partial
failure is reported per-location).  Every present path is removed; the
report attributes one outcome to every requested location. -/
def clientDelete (store : ObjectStore) (paths : List String) :
    ObjectStore × List DeleteOutcome :=
  ({ store with contents := store.contents.filter (fun c => ¬ c.1 ∈ paths) },
   paths.map (fun p =>
     if hasPath store p then DeleteOutcome.deleted p else DeleteOutcome.notFoundAt p))

/-- Modelled from the spec: the external storage client's copy (§4.2: if
overwrite is false and the destination exists, fail with a conflict kind;
§7: a missing source is a not-found). -/
def clientCopy (store : ObjectStore) (src dst : String) (overwrite : Bool) :
    Except Err Unit :=
  if overwrite = false ∧ hasPath store dst = true then
    Except.error (Err.conflict dst)
  else if hasPath store src = false then
    Except.error (Err.notFound src)
  else
    Except.ok ()

/-- Modelled from the spec: the external storage client's rename, with the
same overwrite policy as copy (§4.2). -/
def clientRename (store : ObjectStore) (src dst : String) (overwrite : Bool) :
    Except Err Unit :=
  clientCopy store src dst overwrite

/-- Modelled from the spec: the external storage client's head (§4.2: fetch
metadata for the location; fail with not-found if absent). -/
def clientHead (store : ObjectStore) (p : String) : Except Err (String × Nat) :=
  match store.contents.find? (fun c => c.1 = p) with
  | some c => Except.ok c
  | none => Except.error (Err.notFound p)

/-! ### Typed requests and responses (`bound.py`) -/

/-- Value of a `str | Sequence[str]` field: the response shape mirrors the
request shape element-for-element. -/
inductive PathsField where
  | one (p : String)
  | many (ps : List String)
deriving DecidableEq, Repr

/-- Locations carried by a `PathsField`, in order. -/
def PathsField.toList : PathsField → List String
  | .one p => [p]
  | .many ps => ps

/-- Validated `bound.CopyRequest`. -/
structure CopyRequest where
  from_ : String
  to_ : String
  overwrite : Bool
deriving DecidableEq, Repr

/-- Validated `bound.DeleteRequest`. -/
structure DeleteRequest where
  paths : PathsField
deriving DecidableEq, Repr

/-- Validated `bound.GetRequest`. -/
structure GetRequest where
  path : String
deriving DecidableEq, Repr

/-- Validated `bound.HeadRequest`. -/
structure HeadRequest where
  path : String
deriving DecidableEq, Repr

/-- Validated `bound.ListRequest` (no fields). -/
inductive ListRequest where
  | mk
deriving DecidableEq, Repr

/-- Validated `bound.PutRequest` (no fields). -/
inductive PutRequest where
  | mk
deriving DecidableEq, Repr

/-- Validated `bound.RenameRequest`. -/
structure RenameRequest where
  from_ : String
  to_ : String
  overwrite : Bool
deriving DecidableEq, Repr

/-- Validated `bound.SignRequest` (`method` holds the enum's string value,
`expires_in` the duration in seconds). -/
structure SignRequest where
  method : String
  paths : PathsField
  expires_in : Int
deriving DecidableEq, Repr

/-- Empty `bound.GetResponse`. -/
inductive GetResponse where
  | mk
deriving DecidableEq, Repr

/-- Empty `bound.ListResponse`. -/
inductive ListResponse where
  | mk
deriving DecidableEq, Repr

/-- Empty `bound.PutResponse`. -/
inductive PutResponse where
  | mk
deriving DecidableEq, Repr

/-- Response of `bound.sign`: signed URL(s), mirroring the request shape. -/
structure SignResponse where
  signed : PathsField
deriving DecidableEq, Repr

/-! ### Call traces -/

/-- One call against the storage backend, with the arguments the facade
passes to the client. -/
inductive StoreCall where
  | copyCall (storeId : Nat) (src dst : String) (overwrite : Bool)
  | deleteCall (storeId : Nat) (paths : PathsField)
  | headCall (storeId : Nat) (path : String)
  | renameCall (storeId : Nat) (src dst : String) (overwrite : Bool)
  | signCall (storeId : Nat) (method : String) (paths : PathsField) (expiresIn : Int)
deriving DecidableEq, Repr

/-- Observable events of a handler execution: construction of a store handle
by the factory, or a call against the storage backend. -/
inductive Event where
  | factoryCreate (storeId : Nat) (url : String)
  | store (c : StoreCall)
deriving DecidableEq, Repr

/-- Trace events tagged with the name of the checkpointed step they execute
in (`none` would mean outside any checkpointed step). -/
abbrev SteppedEvent := Option String × Event

/-- Test for a storage-backend call. -/
def isStoreCallEvent : Event → Bool
  | .store _ => true
  | _ => false

/-- Test for a sign call against the storage backend. -/
def isSignCallEvent : Event → Bool
  | .store (.signCall _ _ _ _) => true
  | _ => false

/-- Test for a factory store construction. -/
def isCreateEvent : Event → Bool
  | .factoryCreate _ _ => true
  | _ => false

/-- Store id used by an event. -/
def eventStoreId : Event → Nat
  | .factoryCreate i _ => i
  | .store (.copyCall i _ _ _) => i
  | .store (.deleteCall i _) => i
  | .store (.headCall i _) => i
  | .store (.renameCall i _ _ _) => i
  | .store (.signCall i _ _ _) => i

/-- Number of storage-backend calls in a stepped trace. -/
def storeCallCount (tr : List SteppedEvent) : Nat :=
  (tr.filter (fun p => isStoreCallEvent p.2)).length

/-- Ids of the store handles constructed by the factory during a trace. -/
def createdIds (tr : List SteppedEvent) : List Nat :=
  (tr.filter (fun p => isCreateEvent p.2)).map (fun p => eventStoreId p.2)

/-- Ids of the store handles that storage-backend calls were made on. -/
def usedStoreIds (tr : List SteppedEvent) : List Nat :=
  (tr.filter (fun p => isStoreCallEvent p.2)).map (fun p => eventStoreId p.2)

/-! ### Storage facade (`bound.py`)

Each facade function returns the trace of calls it makes against the
storage backend together with its outcome. -/

/-- Facade `bound.copy`: one `copy_async` call forwarding source,
destination and the overwrite flag verbatim. -/
def copy (store : ObjectStore) (request : CopyRequest) :
    List Event × Except Err Unit :=
  ([Event.store (StoreCall.copyCall store.id request.from_ request.to_ request.overwrite)],
   clientCopy store request.from_ request.to_ request.overwrite)

/-- Facade `bound.delete`: one `delete_async` call forwarding the request's
path(s); the client model reports per-location outcomes and the updated
backend state. -/
def delete (store : ObjectStore) (request : DeleteRequest) :
    List Event × (ObjectStore × List DeleteOutcome) :=
  ([Event.store (StoreCall.deleteCall store.id request.paths)],
   clientDelete store request.paths.toList)

/-- Facade `bound.get`: the body is `raise NotImplementedError`; no call is
made against the storage backend. -/
def get (store : ObjectStore) (request : GetRequest) :
    List Event × Except Err GetResponse :=
  ([], Except.error Err.notImplemented)

/-- Facade `bound.head`: one `head_async` call for the request's path. -/
def head (store : ObjectStore) (request : HeadRequest) :
    List Event × Except Err (String × Nat) :=
  ([Event.store (StoreCall.headCall store.id request.path)],
   clientHead store request.path)

/-- Facade `bound._list`: the body is `raise NotImplementedError`; no call
is made against the storage backend. -/
def listOp (store : ObjectStore) (request : ListRequest) :
    List Event × Except Err ListResponse :=
  ([], Except.error Err.notImplemented)

/-- Facade `bound.put`: the body is `raise NotImplementedError`; no call is
made against the storage backend. -/
def put (store : ObjectStore) (request : PutRequest) :
    List Event × Except Err PutResponse :=
  ([], Except.error Err.notImplemented)

/-- Facade `bound.rename`: one `rename_async` call forwarding source,
destination and the overwrite flag verbatim. -/
def rename (store : ObjectStore) (request : RenameRequest) :
    List Event × Except Err Unit :=
  ([Event.store (StoreCall.renameCall store.id request.from_ request.to_ request.overwrite)],
   clientRename store request.from_ request.to_ request.overwrite)

/-- Modelled from the spec: the external client's signing of one location
(§4.2: one signed URL per input location). -/
def signUrlModel (store : ObjectStore) (method p : String) : String :=
  ("https://signed/") ++ storeRepr store ++ ("/") ++ method ++ ("/") ++ p

/-- Modelled from the spec: `obstore.sign_async`, producing signed URLs that
mirror the request shape element-for-element (§4.1, §4.2). -/
def clientSign (store : ObjectStore) (method : String) (paths : PathsField)
    (expiresIn : Int) : PathsField :=
  match paths with
  | .one p => PathsField.one (signUrlModel store method p)
  | .many ps => PathsField.many (ps.map (signUrlModel store method))

/-- Facade `bound.sign`: one `obstore.sign_async` call forwarding the
method's value, the path(s) and the expiry. -/
def sign (store : ObjectStore) (request : SignRequest) :
    List Event × Except Err SignResponse :=
  ([Event.store (StoreCall.signCall store.id request.method request.paths request.expires_in)],
   Except.ok ⟨clientSign store request.method request.paths request.expires_in⟩)

/-! ### Bound executors and capability classification (`bound.py`, `store.py`) -/

/-- A bound-mode executor: `bound.Executor` wraps any store, and its subclass
`bound.SignCapableExecutor` is only ever constructed around a sign-capable
store. -/
inductive BoundExecutor where
  | plain (s : ObjectStore)
  | signCapable (s : ObjectStore)
deriving DecidableEq, Repr

/-- Store handle captured by the executor at construction. -/
def BoundExecutor.store : BoundExecutor → ObjectStore
  | .plain s => s
  | .signCapable s => s

/-- Test mirroring `isinstance(executor, SignCapableExecutor)`. -/
def BoundExecutor.isSignCapableExec : BoundExecutor → Bool
  | .plain _ => false
  | .signCapable _ => true

/-- Embeds `bound.create_executor`: wrap the store in a
`SignCapableExecutor` exactly when `isinstance(store, SignCapableStore)`,
and in a plain `Executor` otherwise. -/
def create_executor (s : ObjectStore) : BoundExecutor :=
  if isSignCapableStore s then BoundExecutor.signCapable s else BoundExecutor.plain s

/-- Wrapper classes of `store.py` (`Store` / `SignCapableStore`). -/
inductive StoreWrapper where
  | plain (s : ObjectStore)
  | signCapable (s : ObjectStore)
deriving DecidableEq, Repr

/-- Test mirroring `isinstance(wrapper, SignCapableStore)` on `store.py`'s
wrapper classes. -/
def StoreWrapper.isSignCapableWrapper : StoreWrapper → Bool
  | .plain _ => false
  | .signCapable _ => true

/-- Embeds `store.create_store`: wrap in `SignCapableStore` exactly when the
handle is an `AzureStore`, `GCSStore` or `S3Store` instance. -/
def create_store (s : ObjectStore) : StoreWrapper :=
  if isSignCapableStore s then StoreWrapper.signCapable s else StoreWrapper.plain s

/-- Uniform response type returned to the host by the handlers (results of
the eight operations). -/
inductive AnyResponse where
  | ack
  | deleteReport (outcomes : List DeleteOutcome)
  | meta (path : String) (size : Nat)
  | getResp
  | listResp
  | putResp
  | signResp (r : SignResponse)
deriving DecidableEq, Repr

/-! ### Unbound mode (`unbound.py`) -/

/-- An unbound request: the bound request's fields plus the required `url`
field added by subclassing in `unbound.py`. -/
structure UnboundReq (α : Type) where
  base : α
  url : String
deriving DecidableEq, Repr

/-- Modelled from the spec: `obstore.store.from_url` resolves the
URL scheme to a concrete backend class, failing with a resolution error on a
malformed or unsupported URL (§4.4, §7). -/
def schemeKind (url : String) : Option StoreKind :=
  if strHasPrefix url ("s3://") then some StoreKind.s3
  else if strHasPrefix url ("gs://") then some StoreKind.gcs
  else if strHasPrefix url ("az://") then some StoreKind.azure
  else if strHasPrefix url ("file://") then some StoreKind.local
  else if strHasPrefix url ("memory://") then some StoreKind.memory
  else if strHasPrefix url ("http://") then some StoreKind.http
  else if strHasPrefix url ("https://") then some StoreKind.http
  else none

/-- Embeds `DefaultObjectStoreFactory.create` = `from_url(str(url))`.  The
supply `sup` provides the identity of the freshly constructed handle; every
successful call returns a new instance and advances the supply. -/
def fromUrl (sup : Nat) (url : String) : Except Err (ObjectStore × Nat) :=
  match schemeKind url with
  | some k => Except.ok (⟨k, sup, []⟩, sup + 1)
  | none => Except.error (Err.resolutionError url)

/-- Shared shape of every `unbound.Executor` method: construct a store from
the request's url via the factory, then run the facade body on it.  A
factory failure propagates and nothing else runs. -/
def withStore (sup : Nat) (url : String)
    (body : ObjectStore → List Event × Except Err AnyResponse) :
    (List Event × Except Err AnyResponse) × Nat :=
  match fromUrl sup url with
  | Except.ok (store, sup') =>
    let out := body store
    ((Event.factoryCreate store.id url :: out.1, out.2), sup')
  | Except.error e => (([], Except.error e), sup)

/-- Embeds `unbound.Executor.copy`. -/
def ucopy (sup : Nat) (r : UnboundReq CopyRequest) :
    (List Event × Except Err AnyResponse) × Nat :=
  withStore sup r.url (fun store =>
    let out := copy store r.base
    (out.1, out.2.map (fun _ => AnyResponse.ack)))

/-- Embeds `unbound.Executor.delete`. -/
def udelete (sup : Nat) (r : UnboundReq DeleteRequest) :
    (List Event × Except Err AnyResponse) × Nat :=
  withStore sup r.url (fun store =>
    let out := delete store r.base
    (out.1, Except.ok (AnyResponse.deleteReport out.2.2)))

/-- Embeds `unbound.Executor.get`. -/
def uget (sup : Nat) (r : UnboundReq GetRequest) :
    (List Event × Except Err AnyResponse) × Nat :=
  withStore sup r.url (fun store =>
    let out := get store r.base
    (out.1, out.2.map (fun _ => AnyResponse.getResp)))

/-- Embeds `unbound.Executor.head`. -/
def uhead (sup : Nat) (r : UnboundReq HeadRequest) :
    (List Event × Except Err AnyResponse) × Nat :=
  withStore sup r.url (fun store =>
    let out := head store r.base
    (out.1, out.2.map (fun c => AnyResponse.meta c.1 c.2)))

/-- Embeds `unbound.Executor.list`. -/
def ulist (sup : Nat) (r : UnboundReq ListRequest) :
    (List Event × Except Err AnyResponse) × Nat :=
  withStore sup r.url (fun store =>
    let out := listOp store r.base
    (out.1, out.2.map (fun _ => AnyResponse.listResp)))

/-- Embeds `unbound.Executor.put`. -/
def uput (sup : Nat) (r : UnboundReq PutRequest) :
    (List Event × Except Err AnyResponse) × Nat :=
  withStore sup r.url (fun store =>
    let out := put store r.base
    (out.1, out.2.map (fun _ => AnyResponse.putResp)))

/-- Embeds `unbound.Executor.rename`. -/
def urename (sup : Nat) (r : UnboundReq RenameRequest) :
    (List Event × Except Err AnyResponse) × Nat :=
  withStore sup r.url (fun store =>
    let out := rename store r.base
    (out.1, out.2.map (fun _ => AnyResponse.ack)))

/-- Embeds `unbound.Executor.sign`: the factory resolves the store first;
only then is `isinstance(store, SignCapableStore)` checked, and a
non-capable store raises `ValueError(f"Store ... is not signable")` without
touching `bound.sign`. -/
def usign (sup : Nat) (r : UnboundReq SignRequest) :
    (List Event × Except Err AnyResponse) × Nat :=
  withStore sup r.url (fun store =>
    if isSignCapableStore store then
      let out := sign store r.base
      (out.1, out.2.map AnyResponse.signResp)
    else
      ([], Except.error (Err.notSignable
        (("Store ") ++ storeRepr store ++ (" is not signable")))))

/-! ### Registrar and host dispatch (`restate.py`) -/

/-- Embeds the host's checkpointed-step primitive `ctx.run_typed(name, fn)`:
every event of the wrapped computation happens inside the step named
`stepName`. -/
def runTyped (stepName : String) (out : List Event × Except Err AnyResponse) :
    List SteppedEvent × Except Err AnyResponse :=
  (out.1.map (fun e => (some stepName, e)), out.2)

/-- Inbound request to the bound service, one variant per operation. -/
inductive BAnyRequest where
  | copyR (r : CopyRequest)
  | deleteR (r : DeleteRequest)
  | getR (r : GetRequest)
  | headR (r : HeadRequest)
  | listR (r : ListRequest)
  | putR (r : PutRequest)
  | renameR (r : RenameRequest)
  | signR (r : SignRequest)
deriving DecidableEq, Repr

/-- Inbound request to the unbound service, one variant per operation. -/
inductive UAnyRequest where
  | copyR (r : UnboundReq CopyRequest)
  | deleteR (r : UnboundReq DeleteRequest)
  | getR (r : UnboundReq GetRequest)
  | headR (r : UnboundReq HeadRequest)
  | listR (r : UnboundReq ListRequest)
  | putR (r : UnboundReq PutRequest)
  | renameR (r : UnboundReq RenameRequest)
  | signR (r : UnboundReq SignRequest)
deriving DecidableEq, Repr

/-- Operation name of a bound request (the handler name in `restate.py`). -/
def opNameB : BAnyRequest → String
  | .copyR _ => "copy"
  | .deleteR _ => "delete"
  | .getR _ => "get"
  | .headR _ => "head"
  | .listR _ => "list"
  | .putR _ => "put"
  | .renameR _ => "rename"
  | .signR _ => "sign"

/-- Operation name of an unbound request. -/
def opNameU : UAnyRequest → String
  | .copyR _ => "copy"
  | .deleteR _ => "delete"
  | .getR _ => "get"
  | .headR _ => "head"
  | .listR _ => "list"
  | .putR _ => "put"
  | .renameR _ => "rename"
  | .signR _ => "sign"

/-- URL carried by an unbound request. -/
def urlOf : UAnyRequest → String
  | .copyR r => r.url
  | .deleteR r => r.url
  | .getR r => r.url
  | .headR r => r.url
  | .listR r => r.url
  | .putR r => r.url
  | .renameR r => r.url
  | .signR r => r.url

/-- Number of storage-backend calls a bound handler makes: one per
implemented operation, zero for the unimplemented stubs. -/
def expectedCallsB : BAnyRequest → Nat
  | .getR _ => 0
  | .listR _ => 0
  | .putR _ => 0
  | _ => 1

/-- Embeds `register_bound_service`: the handler names registered with the
host; the seven unconditional operations, plus `sign` exactly when
`isinstance(executor, SignCapableExecutor)`. -/
def register_bound_service (ex : BoundExecutor) : List String :=
  ["copy", "delete", "get", "head", "list", "put", "rename"] ++
    (match ex with
     | .signCapable _ => ["sign"]
     | .plain _ => [])

/-- Embeds `register_unbound_service`: all eight handlers, `sign` included
unconditionally. -/
def register_unbound_service : List String :=
  ["copy", "delete", "get", "head", "list", "put", "rename", "sign"]

/-- Host dispatch to the handlers registered by `register_bound_service`:
each handler body is a single `ctx.run_typed(opName, executor.op, request)`.
The result is `none` when no handler is registered for the operation (the
`sign` handler of a plain executor). -/
def boundHandle (ex : BoundExecutor) (req : BAnyRequest) :
    Option (List SteppedEvent × Except Err AnyResponse) :=
  match req with
  | .copyR r =>
    let out := copy ex.store r
    some (runTyped ("copy") (out.1, out.2.map (fun _ => AnyResponse.ack)))
  | .deleteR r =>
    let out := delete ex.store r
    some (runTyped ("delete") (out.1, Except.ok (AnyResponse.deleteReport out.2.2)))
  | .getR r =>
    let out := get ex.store r
    some (runTyped ("get") (out.1, out.2.map (fun _ => AnyResponse.getResp)))
  | .headR r =>
    let out := head ex.store r
    some (runTyped ("head") (out.1, out.2.map (fun c => AnyResponse.meta c.1 c.2)))
  | .listR r =>
    let out := listOp ex.store r
    some (runTyped ("list") (out.1, out.2.map (fun _ => AnyResponse.listResp)))
  | .putR r =>
    let out := put ex.store r
    some (runTyped ("put") (out.1, out.2.map (fun _ => AnyResponse.putResp)))
  | .renameR r =>
    let out := rename ex.store r
    some (runTyped ("rename") (out.1, out.2.map (fun _ => AnyResponse.ack)))
  | .signR r =>
    match ex with
    | .signCapable s =>
      let out := sign s r
      some (runTyped ("sign") (out.1, out.2.map AnyResponse.signResp))
    | .plain _ => none

/-- Host dispatch to the handlers registered by `register_unbound_service`:
each handler body is a single `ctx.run_typed(opName, executor.op, request)`,
and the store-id supply is threaded through. -/
def unboundHandle (sup : Nat) (req : UAnyRequest) :
    (List SteppedEvent × Except Err AnyResponse) × Nat :=
  match req with
  | .copyR r => let out := ucopy sup r; (runTyped ("copy") out.1, out.2)
  | .deleteR r => let out := udelete sup r; (runTyped ("delete") out.1, out.2)
  | .getR r => let out := uget sup r; (runTyped ("get") out.1, out.2)
  | .headR r => let out := uhead sup r; (runTyped ("head") out.1, out.2)
  | .listR r => let out := ulist sup r; (runTyped ("list") out.1, out.2)
  | .putR r => let out := uput sup r; (runTyped ("put") out.1, out.2)
  | .renameR r => let out := urename sup r; (runTyped ("rename") out.1, out.2)
  | .signR r => let out := usign sup r; (runTyped ("sign") out.1, out.2)

/-! ### Helper lemmas -/

/-- Appending an entry under a different key does not change a lookup. -/
lemma lookupField_append_ne (raw : List (String × JValue)) (k key : String)
    (v : JValue) (h : key ≠ k) :
    lookupField (raw ++ [(k, v)]) key = lookupField raw key := by
  induction raw with
  | nil => simp [lookupField, if_neg (Ne.symm h)]
  | cons hd tl ih =>
    obtain ⟨a, b⟩ := hd
    by_cases ha : a = key <;> simp [lookupField, ha, ih]

/-- Validation only consults declared keys: appending an entry under an
undeclared key leaves the outcome unchanged. -/
lemma parseModel_append_unknown (schema : List FieldSpec)
    (raw : List (String × JValue)) (k : String) (v : JValue)
    (hk : k ∉ declaredKeys schema) :
    parseModel schema (raw ++ [(k, v)]) = parseModel schema raw := by
  induction schema with
  | nil => rfl
  | cons fs rest ih =>
    have hk' : ¬ (k = fs.key ∨ k ∈ List.map (fun f => f.key) rest) := by
      simpa [declaredKeys] using hk
    push_neg at hk'
    have hkey : fs.key ≠ k := fun h => hk'.1 h.symm
    have hrest : k ∉ declaredKeys rest := by
      simpa [declaredKeys] using hk'.2
    simp only [parseModel, lookupField_append_ne raw k fs.key v hkey, ih hrest]

/-! ### Claims -/

/-- C4: for every resolved store handle the capability classification is
structural and matches the closed set exactly: `create_executor` returns a
sign-capable wrapper iff the handle is an S3, GCS or Azure backend, and the
plain wrapper for every other backend (local filesystem included); the same
holds for `create_store`. -/
theorem C4_capability_classification (s : ObjectStore) :
    ((create_executor s).isSignCapableExec = true ↔
      (s.kind = StoreKind.s3 ∨ s.kind = StoreKind.gcs ∨ s.kind = StoreKind.azure))
    ∧ ((create_store s).isSignCapableWrapper = true ↔
      (s.kind = StoreKind.s3 ∨ s.kind = StoreKind.gcs ∨ s.kind = StoreKind.azure)) := by
  obtain ⟨k, i, c⟩ := s
  cases k <;>
    simp [create_executor, create_store, isSignCapableStore, isSignCapable,
      BoundExecutor.isSignCapableExec, StoreWrapper.isSignCapableWrapper]

/-- C6 counterexample: a Delete request carrying the undeclared field
`bogus` passes validation (pydantic's default configuration ignores unknown
fields), contradicting the claim that such a request fails validation. -/
theorem C6_counterexample :
    parseModel deleteRequestSchema
      [("paths", JValue.str ("a")), ("bogus", JValue.str ("x"))] =
    Except.ok [("paths", JValue.str ("a"))] := rfl

/-- C6 amended: for every operation request type in both modes, validation
silently ignores fields not declared by the request's schema — an unknown
field never causes rejection and is dropped from the validated request. -/
theorem C6_unknown_fields_ignored (schema : List FieldSpec)
    (hs : schema ∈ allSchemas) (raw : List (String × JValue)) (k : String)
    (v : JValue) (hk : k ∉ declaredKeys schema) :
    parseModel schema (raw ++ [(k, v)]) = parseModel schema raw :=
  parseModel_append_unknown schema raw k v hk

/-- Witness for C6 amended at the bound Delete schema and the unknown key
`bogus`. -/
theorem C6_unknown_fields_ignored_witness :
    deleteRequestSchema ∈ allSchemas
    ∧ ("bogus") ∉ declaredKeys deleteRequestSchema
    ∧ parseModel deleteRequestSchema
        ([("paths", JValue.str ("a"))] ++ [("bogus", JValue.bool true)]) =
      parseModel deleteRequestSchema [("paths", JValue.str ("a"))] :=
  ⟨by decide, by decide,
   C6_unknown_fields_ignored deleteRequestSchema (by decide) _ _ _ (by decide)⟩

/-- C7 counterexample: a Head request whose `path` is the empty string
passes validation (the `str` fields of the request models carry no
minimum-length constraint), contradicting the claim that validation rejects
the empty string. -/
theorem C7_counterexample :
    parseModel headRequestSchema [("path", JValue.str (""))] =
      Except.ok [("path", JValue.str (""))] := rfl

/-- C7 amended: this layer imposes no structural constraint on locations at
all — every string, the empty string included, is accepted for the path of
a Head request and for the source and destination of a Copy request, and
delegated to the storage client. -/
theorem C7_locations_unconstrained (s a b : String) :
    parseModel headRequestSchema [("path", JValue.str s)] =
      Except.ok [("path", JValue.str s)]
    ∧ parseModel copyRequestSchema [("from", JValue.str a), ("to", JValue.str b)] =
      Except.ok [("from", JValue.str a), ("to", JValue.str b),
        ("overwrite", JValue.bool true)] :=
  ⟨rfl, rfl⟩

/-- C8: an omitted `overwrite` field of a Copy or Rename request defaults to
`true`; the copy and rename facade functions forward the request's
`overwrite` value unchanged to the storage client call; and in the client
model the conflict outcome is governed solely by that flag (conflict iff
`overwrite` is false and the destination exists). -/
theorem C8_overwrite_default_and_forwarding (a b : String) (store : ObjectStore)
    (rc : CopyRequest) (rr : RenameRequest) (src dst : String) (ow : Bool) :
    (parseModel copyRequestSchema [("from", JValue.str a), ("to", JValue.str b)] =
      Except.ok [("from", JValue.str a), ("to", JValue.str b),
        ("overwrite", JValue.bool true)])
    ∧ (parseModel renameRequestSchema [("from", JValue.str a), ("to", JValue.str b)] =
      Except.ok [("from", JValue.str a), ("to", JValue.str b),
        ("overwrite", JValue.bool true)])
    ∧ (copy store rc).1 =
        [Event.store (StoreCall.copyCall store.id rc.from_ rc.to_ rc.overwrite)]
    ∧ (rename store rr).1 =
        [Event.store (StoreCall.renameCall store.id rr.from_ rr.to_ rr.overwrite)]
    ∧ (clientCopy store src dst ow = Except.error (Err.conflict dst) ↔
        (ow = false ∧ hasPath store dst = true))
    ∧ (clientRename store src dst ow = Except.error (Err.conflict dst) ↔
        (ow = false ∧ hasPath store dst = true)) := by
  refine ⟨rfl, rfl, rfl, rfl, ?_, ?_⟩ <;>
    · by_cases h : ow = false ∧ hasPath store dst = true
      · simp [clientCopy, clientRename, h]
      · by_cases h2 : hasPath store src = false <;>
          simp [clientCopy, clientRename, h, h2]

/-- C9: the get, list and put facade functions are unimplemented
placeholders: every invocation fails with a not-implemented error and makes
no call against the storage backend; in unbound mode the corresponding
handlers likewise make no storage-backend call and fail with either the
not-implemented error or, for an unresolvable URL, the resolution error. -/
theorem C9_unimplemented_stubs (store : ObjectStore) (rg : GetRequest)
    (rl : ListRequest) (rp : PutRequest) (sup : Nat) (ug : UnboundReq GetRequest)
    (ul : UnboundReq ListRequest) (up : UnboundReq PutRequest) :
    get store rg = ([], Except.error Err.notImplemented)
    ∧ listOp store rl = ([], Except.error Err.notImplemented)
    ∧ put store rp = ([], Except.error Err.notImplemented)
    ∧ storeCallCount (unboundHandle sup (UAnyRequest.getR ug)).1.1 = 0
    ∧ storeCallCount (unboundHandle sup (UAnyRequest.listR ul)).1.1 = 0
    ∧ storeCallCount (unboundHandle sup (UAnyRequest.putR up)).1.1 = 0
    ∧ ((unboundHandle sup (UAnyRequest.getR ug)).1.2 = Except.error Err.notImplemented
        ∨ (unboundHandle sup (UAnyRequest.getR ug)).1.2 =
            Except.error (Err.resolutionError ug.url)) := by
  refine ⟨rfl, rfl, rfl, ?_, ?_, ?_, ?_⟩
  · unfold unboundHandle uget withStore fromUrl
    cases h : schemeKind ug.url <;>
      simp [h, get, runTyped, storeCallCount, isStoreCallEvent]
  · unfold unboundHandle ulist withStore fromUrl
    cases h : schemeKind ul.url <;>
      simp [h, listOp, runTyped, storeCallCount, isStoreCallEvent]
  · unfold unboundHandle uput withStore fromUrl
    cases h : schemeKind up.url <;>
      simp [h, put, runTyped, storeCallCount, isStoreCallEvent]
  · unfold unboundHandle uget withStore fromUrl
    cases h : schemeKind ug.url <;>
      simp [h, get, runTyped, Except.map]

/-- C1: the sign operation is registered iff the mode permits it — in bound
mode the sign handler exists at startup exactly when the executor wraps a
sign-capable store (and dispatch finds no handler otherwise); in unbound
mode sign is always registered, and a sign invocation whose resolved store
is not sign-capable fails with the capability-unsupported error naming the
concrete store, without any sign call against the storage client. -/
theorem C1_sign_gating (s : ObjectStore) (r : SignRequest) (sup : Nat)
    (ur : UnboundReq SignRequest) (k : StoreKind)
    (hk : schemeKind ur.url = some k) (hcap : isSignCapable k = false) :
    (("sign") ∈ register_bound_service (create_executor s) ↔
      isSignCapableStore s = true)
    ∧ (boundHandle (create_executor s) (BAnyRequest.signR r)).isSome =
        isSignCapableStore s
    ∧ ("sign") ∈ register_unbound_service
    ∧ (usign sup ur).1.2 = Except.error (Err.notSignable
        (("Store ") ++ storeRepr ⟨k, sup, []⟩ ++ (" is not signable")))
    ∧ (∀ e ∈ (usign sup ur).1.1, isSignCallEvent e = false) := by
  refine ⟨?_, ?_, ?_, ?_, ?_⟩
  · cases h : isSignCapableStore s <;>
      simp [register_bound_service, create_executor, h]
  · cases h : isSignCapableStore s <;>
      simp [boundHandle, create_executor, h]
  · simp [register_unbound_service]
  · unfold usign withStore fromUrl
    simp [hk, isSignCapableStore, hcap]
  · unfold usign withStore fromUrl
    simp [hk, isSignCapableStore, hcap, isSignCallEvent]

/-- Witness for C1 at a local-filesystem store and a `file://` URL. -/
theorem C1_sign_gating_witness :
    ((("sign") ∈ register_bound_service (create_executor ⟨StoreKind.local, 5, []⟩) ↔
        isSignCapableStore ⟨StoreKind.local, 5, []⟩ = true)
     ∧ (boundHandle (create_executor ⟨StoreKind.local, 5, []⟩)
          (BAnyRequest.signR ⟨"GET", PathsField.one ("p"), 3600⟩)).isSome =
        isSignCapableStore ⟨StoreKind.local, 5, []⟩
     ∧ ("sign") ∈ register_unbound_service
     ∧ (usign 0 ⟨⟨"GET", PathsField.one ("p"), 3600⟩, "file:///tmp/x"⟩).1.2 =
        Except.error (Err.notSignable
          (("Store ") ++ storeRepr ⟨StoreKind.local, 0, []⟩ ++ (" is not signable")))
     ∧ (∀ e ∈ (usign 0 ⟨⟨"GET", PathsField.one ("p"), 3600⟩, "file:///tmp/x"⟩).1.1,
          isSignCallEvent e = false)) :=
  C1_sign_gating ⟨StoreKind.local, 5, []⟩ ⟨"GET", PathsField.one ("p"), 3600⟩ 0
    ⟨⟨"GET", PathsField.one ("p"), 3600⟩, "file:///tmp/x"⟩ StoreKind.local
    (by decide) (by decide)

/-- C10: in unbound mode the sign handler invokes the store factory before
the capability check — an unresolvable URL surfaces as a resolution error
(taking precedence over the capability-unsupported error), and for a URL
resolving to a non-capable backend the store handle is constructed even
though the request fails as capability-unsupported. -/
theorem C10_factory_precedes_capability (sup : Nat) (ur : UnboundReq SignRequest)
    (k : StoreKind) :
    (schemeKind ur.url = none →
      usign sup ur = (([], Except.error (Err.resolutionError ur.url)), sup))
    ∧ (schemeKind ur.url = some k → isSignCapable k = false →
      (usign sup ur).1.1 = [Event.factoryCreate sup ur.url]
      ∧ (usign sup ur).1.2 = Except.error (Err.notSignable
          (("Store ") ++ storeRepr ⟨k, sup, []⟩ ++ (" is not signable")))
      ∧ (usign sup ur).2 = sup + 1) := by
  constructor
  · intro h
    unfold usign withStore fromUrl
    simp [h]
  · intro hk hcap
    unfold usign withStore fromUrl
    simp [hk, isSignCapableStore, hcap]

/-- Witness for C10 at an unresolvable URL and a `memory://` URL. -/
theorem C10_factory_precedes_capability_witness :
    (usign 2 ⟨⟨"PUT", PathsField.one ("q"), 60⟩, "not-a-url"⟩ =
      (([], Except.error (Err.resolutionError ("not-a-url"))), 2))
    ∧ ((usign 2 ⟨⟨"PUT", PathsField.one ("q"), 60⟩, "memory:///"⟩).1.1 =
        [Event.factoryCreate 2 ("memory:///")]
      ∧ (usign 2 ⟨⟨"PUT", PathsField.one ("q"), 60⟩, "memory:///"⟩).1.2 =
          Except.error (Err.notSignable
            (("Store ") ++ storeRepr ⟨StoreKind.memory, 2, []⟩ ++ (" is not signable")))
      ∧ (usign 2 ⟨⟨"PUT", PathsField.one ("q"), 60⟩, "memory:///"⟩).2 = 2 + 1) :=
  ⟨(C10_factory_precedes_capability 2 ⟨⟨"PUT", PathsField.one ("q"), 60⟩, "not-a-url"⟩
      StoreKind.memory).1 (by decide),
   (C10_factory_precedes_capability 2 ⟨⟨"PUT", PathsField.one ("q"), 60⟩, "memory:///"⟩
      StoreKind.memory).2 (by decide) (by decide)⟩

/-- C2: for every registered handler in either mode, every observable event
of its execution happens inside the checkpointed step whose name is the
operation name, and the handler makes at most one storage-backend call (for
bound handlers, exactly one for the implemented operations and zero for the
stubs). -/
theorem C2_checkpoint_discipline (ex : BoundExecutor) (req : BAnyRequest)
    (out : List SteppedEvent × Except Err AnyResponse)
    (h : boundHandle ex req = some out) (sup : Nat) (ureq : UAnyRequest) :
    ((∀ p ∈ out.1, p.1 = some (opNameB req))
      ∧ storeCallCount out.1 = expectedCallsB req)
    ∧ ((∀ p ∈ (unboundHandle sup ureq).1.1, p.1 = some (opNameU ureq))
      ∧ storeCallCount (unboundHandle sup ureq).1.1 ≤ 1) := by
  constructor
  · cases req <;> cases ex <;>
      simp only [boundHandle] at h <;>
      first
      | exact Option.noConfusion h
      | (rw [Option.some_inj] at h; subst h;
         simp [runTyped, copy, delete, get, head, listOp, put, rename, sign,
           storeCallCount, isStoreCallEvent, opNameB, expectedCallsB])
  · cases ureq with
    | copyR r =>
      unfold unboundHandle ucopy withStore fromUrl
      cases hh : schemeKind r.url <;>
        simp [hh, runTyped, copy, storeCallCount, isStoreCallEvent, opNameU]
    | deleteR r =>
      unfold unboundHandle udelete withStore fromUrl
      cases hh : schemeKind r.url <;>
        simp [hh, runTyped, delete, storeCallCount, isStoreCallEvent, opNameU]
    | getR r =>
      unfold unboundHandle uget withStore fromUrl
      cases hh : schemeKind r.url <;>
        simp [hh, runTyped, get, storeCallCount, isStoreCallEvent, opNameU]
    | headR r =>
      unfold unboundHandle uhead withStore fromUrl
      cases hh : schemeKind r.url <;>
        simp [hh, runTyped, head, storeCallCount, isStoreCallEvent, opNameU]
    | listR r =>
      unfold unboundHandle ulist withStore fromUrl
      cases hh : schemeKind r.url <;>
        simp [hh, runTyped, listOp, storeCallCount, isStoreCallEvent, opNameU]
    | putR r =>
      unfold unboundHandle uput withStore fromUrl
      cases hh : schemeKind r.url <;>
        simp [hh, runTyped, put, storeCallCount, isStoreCallEvent, opNameU]
    | renameR r =>
      unfold unboundHandle urename withStore fromUrl
      cases hh : schemeKind r.url <;>
        simp [hh, runTyped, rename, storeCallCount, isStoreCallEvent, opNameU]
    | signR r =>
      unfold unboundHandle usign withStore fromUrl
      cases hh : schemeKind r.url with
      | none => simp [hh, runTyped, storeCallCount, isStoreCallEvent, opNameU]
      | some k =>
        cases hc : isSignCapable k <;>
          simp [hh, hc, runTyped, sign, storeCallCount, isStoreCallEvent,
            opNameU, isSignCapableStore]

/-- Witness for C2 at a bound head handler and an unbound head request. -/
theorem C2_checkpoint_discipline_witness :
    ((∀ p ∈ ([(some ("head"), Event.store (StoreCall.headCall 3 ("x")))] :
        List SteppedEvent), p.1 = some (opNameB (BAnyRequest.headR ⟨"x"⟩)))
      ∧ storeCallCount [(some ("head"), Event.store (StoreCall.headCall 3 ("x")))] =
          expectedCallsB (BAnyRequest.headR ⟨"x"⟩))
    ∧ ((∀ p ∈ (unboundHandle 0 (UAnyRequest.headR ⟨⟨"y"⟩, "s3://b"⟩)).1.1,
          p.1 = some (opNameU (UAnyRequest.headR ⟨⟨"y"⟩, "s3://b"⟩)))
      ∧ storeCallCount (unboundHandle 0 (UAnyRequest.headR ⟨⟨"y"⟩, "s3://b"⟩)).1.1 ≤ 1) :=
  C2_checkpoint_discipline (BoundExecutor.plain ⟨StoreKind.local, 3, []⟩)
    (BAnyRequest.headR ⟨"x"⟩)
    ([(some ("head"), Event.store (StoreCall.headCall 3 ("x")))],
      Except.error (Err.notFound ("x"))) rfl 0 (UAnyRequest.headR ⟨⟨"y"⟩, "s3://b"⟩)

/-- Identity bookkeeping of one unbound request: any handle created carries
the current supply as identity, all storage calls go to that handle, any
creation happens first, and the supply advances exactly when a handle was
created. -/
lemma unbound_ids (sup : Nat) (req : UAnyRequest) :
    createdIds (unboundHandle sup req).1.1 =
      (match schemeKind (urlOf req) with
       | some _ => [sup]
       | none => [])
    ∧ (∀ i ∈ usedStoreIds (unboundHandle sup req).1.1, i = sup)
    ∧ (∀ p ∈ (unboundHandle sup req).1.1.drop 1, isCreateEvent p.2 = false)
    ∧ (unboundHandle sup req).2 =
      (match schemeKind (urlOf req) with
       | some _ => sup + 1
       | none => sup) := by
  cases req with
  | copyR r =>
    unfold unboundHandle ucopy withStore fromUrl
    cases hh : schemeKind r.url <;>
      simp [hh, urlOf, runTyped, copy, createdIds, usedStoreIds, eventStoreId,
        isCreateEvent, isStoreCallEvent]
  | deleteR r =>
    unfold unboundHandle udelete withStore fromUrl
    cases hh : schemeKind r.url <;>
      simp [hh, urlOf, runTyped, delete, createdIds, usedStoreIds, eventStoreId,
        isCreateEvent, isStoreCallEvent]
  | getR r =>
    unfold unboundHandle uget withStore fromUrl
    cases hh : schemeKind r.url <;>
      simp [hh, urlOf, runTyped, get, createdIds, usedStoreIds, eventStoreId,
        isCreateEvent, isStoreCallEvent]
  | headR r =>
    unfold unboundHandle uhead withStore fromUrl
    cases hh : schemeKind r.url <;>
      simp [hh, urlOf, runTyped, head, createdIds, usedStoreIds, eventStoreId,
        isCreateEvent, isStoreCallEvent]
  | listR r =>
    unfold unboundHandle ulist withStore fromUrl
    cases hh : schemeKind r.url <;>
      simp [hh, urlOf, runTyped, listOp, createdIds, usedStoreIds, eventStoreId,
        isCreateEvent, isStoreCallEvent]
  | putR r =>
    unfold unboundHandle uput withStore fromUrl
    cases hh : schemeKind r.url <;>
      simp [hh, urlOf, runTyped, put, createdIds, usedStoreIds, eventStoreId,
        isCreateEvent, isStoreCallEvent]
  | renameR r =>
    unfold unboundHandle urename withStore fromUrl
    cases hh : schemeKind r.url <;>
      simp [hh, urlOf, runTyped, rename, createdIds, usedStoreIds, eventStoreId,
        isCreateEvent, isStoreCallEvent]
  | signR r =>
    unfold unboundHandle usign withStore fromUrl
    cases hh : schemeKind r.url with
    | none =>
      simp [hh, urlOf, runTyped, createdIds, usedStoreIds, eventStoreId,
        isCreateEvent, isStoreCallEvent]
    | some k =>
      cases hc : isSignCapable k <;>
        simp [hh, hc, urlOf, runTyped, sign, createdIds, usedStoreIds,
          eventStoreId, isCreateEvent, isStoreCallEvent, isSignCapableStore]

/-- Creation of a handle pins its identity to the supply and advances the
supply. -/
lemma unbound_created_eq (sup : Nat) (req : UAnyRequest) :
    ∀ i ∈ createdIds (unboundHandle sup req).1.1,
      i = sup ∧ (unboundHandle sup req).2 = sup + 1 := by
  intro i hi
  obtain ⟨hc, _, _, hs⟩ := unbound_ids sup req
  rw [hc] at hi
  cases hh : schemeKind (urlOf req) with
  | none =>
    rw [hh] at hi
    simp at hi
  | some k =>
    rw [hh] at hi hs
    simp at hi hs
    exact ⟨hi, hs⟩

/-- C3: in unbound mode each request constructs at most one store handle,
whose identity is the current supply, makes all its storage calls on that
fresh handle, and advances the supply, so two sequentially processed
requests never share a handle identity; in bound mode every dispatched
request makes its storage calls on the one handle captured by the executor
at construction. -/
theorem C3_store_handle_sharing (sup : Nat) (ureq r1 r2 : UAnyRequest)
    (ex : BoundExecutor) (req : BAnyRequest)
    (out : List SteppedEvent × Except Err AnyResponse)
    (h : boundHandle ex req = some out) :
    (createdIds (unboundHandle sup ureq).1.1 =
      (match schemeKind (urlOf ureq) with
       | some _ => [sup]
       | none => []))
    ∧ (∀ i ∈ usedStoreIds (unboundHandle sup ureq).1.1, i = sup)
    ∧ (∀ p ∈ (unboundHandle sup ureq).1.1.drop 1, isCreateEvent p.2 = false)
    ∧ (∀ i ∈ createdIds (unboundHandle sup r1).1.1,
       ∀ j ∈ createdIds (unboundHandle (unboundHandle sup r1).2 r2).1.1, i ≠ j)
    ∧ (∀ i ∈ usedStoreIds out.1, i = (BoundExecutor.store ex).id) := by
  obtain ⟨hc1, hu1, hd1, hs1⟩ := unbound_ids sup ureq
  refine ⟨hc1, hu1, hd1, ?_, ?_⟩
  · intro i hi j hj
    obtain ⟨hi1, hs1'⟩ := unbound_created_eq sup r1 i hi
    obtain ⟨hj1, _⟩ := unbound_created_eq (unboundHandle sup r1).2 r2 j hj
    rw [hi1, hj1, hs1']
    omega
  · cases req <;> cases ex <;>
      simp only [boundHandle] at h <;>
      first
      | exact Option.noConfusion h
      | (rw [Option.some_inj] at h; subst h;
         simp [runTyped, copy, delete, get, head, listOp, put, rename, sign,
           usedStoreIds, eventStoreId, isStoreCallEvent, BoundExecutor.store])

/-- Witness for C3 at two sequential unbound copy requests and a bound
rename dispatch. -/
theorem C3_store_handle_sharing_witness :
    (createdIds (unboundHandle 0 (UAnyRequest.copyR ⟨⟨"a", "b", true⟩, "s3://b1"⟩)).1.1 =
      (match schemeKind (urlOf (UAnyRequest.copyR ⟨⟨"a", "b", true⟩, "s3://b1"⟩)) with
       | some _ => [0]
       | none => []))
    ∧ (∀ i ∈ usedStoreIds
        (unboundHandle 0 (UAnyRequest.copyR ⟨⟨"a", "b", true⟩, "s3://b1"⟩)).1.1, i = 0)
    ∧ (∀ p ∈ (unboundHandle 0 (UAnyRequest.copyR ⟨⟨"a", "b", true⟩, "s3://b1"⟩)).1.1.drop 1,
        isCreateEvent p.2 = false)
    ∧ (∀ i ∈ createdIds
        (unboundHandle 0 (UAnyRequest.copyR ⟨⟨"a", "b", true⟩, "s3://b1"⟩)).1.1,
       ∀ j ∈ createdIds
        (unboundHandle
          (unboundHandle 0 (UAnyRequest.copyR ⟨⟨"a", "b", true⟩, "s3://b1"⟩)).2
          (UAnyRequest.copyR ⟨⟨"a", "b", true⟩, "s3://b1"⟩)).1.1, i ≠ j)
    ∧ (∀ i ∈ usedStoreIds
        ([(some ("rename"), Event.store (StoreCall.renameCall 9 ("u") ("v") false))] :
          List SteppedEvent), i = (BoundExecutor.store
            (BoundExecutor.signCapable ⟨StoreKind.gcs, 9, []⟩)).id) :=
  C3_store_handle_sharing 0 (UAnyRequest.copyR ⟨⟨"a", "b", true⟩, "s3://b1"⟩)
    (UAnyRequest.copyR ⟨⟨"a", "b", true⟩, "s3://b1"⟩)
    (UAnyRequest.copyR ⟨⟨"a", "b", true⟩, "s3://b1"⟩)
    (BoundExecutor.signCapable ⟨StoreKind.gcs, 9, []⟩)
    (BAnyRequest.renameR ⟨"u", "v", false⟩)
    ([(some ("rename"), Event.store (StoreCall.renameCall 9 ("u") ("v") false))],
      Except.error (Err.notFound ("u"))) rfl

/-- C5: for a Delete request over locations of which exactly one is missing,
the operation removes every present location and the per-location report
marks the missing location — and only it — as not-found, each present
location as deleted; objects outside the request are untouched. -/
theorem C5_delete_per_location (store : ObjectStore) (req : DeleteRequest)
    (m : String) (hm : m ∈ req.paths.toList)
    (hmiss : hasPath store m = false)
    (hpres : ∀ p ∈ req.paths.toList, p ≠ m → hasPath store p = true) :
    (delete store req).2.2 =
      req.paths.toList.map (fun p =>
        if p = m then DeleteOutcome.notFoundAt p else DeleteOutcome.deleted p)
    ∧ (∀ p ∈ req.paths.toList, hasPath (delete store req).2.1 p = false)
    ∧ (∀ c ∈ store.contents, c.1 ∉ req.paths.toList →
        c ∈ (delete store req).2.1.contents) := by
  refine ⟨?_, ?_, ?_⟩
  · show (clientDelete store req.paths.toList).2 = _
    unfold clientDelete
    apply List.map_congr_left
    intro p hp
    by_cases hpm : p = m
    · subst hpm
      simp [hmiss]
    · simp [hpres p hp hpm, hpm]
  · intro p hp
    show hasPath (clientDelete store req.paths.toList).1 p = false
    unfold clientDelete hasPath
    rw [List.any_eq_false]
    intro c hc
    rw [List.mem_filter] at hc
    simp only [decide_eq_true_eq] at hc ⊢
    intro hcp
    exact hc.2 (hcp ▸ hp)
  · intro c hc hcp
    show c ∈ (clientDelete store req.paths.toList).1.contents
    unfold clientDelete
    rw [List.mem_filter]
    exact ⟨hc, by simpa using hcp⟩

/-- Witness for C5 at a two-object store and a three-location delete with
one missing location. -/
theorem C5_delete_per_location_witness :
    (("x") ∈ (PathsField.many [("a"), ("x"), ("b")]).toList)
    ∧ hasPath ⟨StoreKind.local, 0, [(("a"), 1), (("b"), 2)]⟩ ("x") = false
    ∧ (∀ p ∈ (PathsField.many [("a"), ("x"), ("b")]).toList, p ≠ ("x") →
        hasPath ⟨StoreKind.local, 0, [(("a"), 1), (("b"), 2)]⟩ p = true)
    ∧ ((delete ⟨StoreKind.local, 0, [(("a"), 1), (("b"), 2)]⟩
          ⟨PathsField.many [("a"), ("x"), ("b")]⟩).2.2 =
        (PathsField.many [("a"), ("x"), ("b")]).toList.map (fun p =>
          if p = ("x") then DeleteOutcome.notFoundAt p else DeleteOutcome.deleted p)
      ∧ (∀ p ∈ (PathsField.many [("a"), ("x"), ("b")]).toList,
          hasPath (delete ⟨StoreKind.local, 0, [(("a"), 1), (("b"), 2)]⟩
            ⟨PathsField.many [("a"), ("x"), ("b")]⟩).2.1 p = false)
      ∧ (∀ c ∈ ([(("a"), 1), (("b"), 2)] : List (String × Nat)),
          c.1 ∉ (PathsField.many [("a"), ("x"), ("b")]).toList →
          c ∈ (delete ⟨StoreKind.local, 0, [(("a"), 1), (("b"), 2)]⟩
            ⟨PathsField.many [("a"), ("x"), ("b")]⟩).2.1.contents)) :=
  ⟨by decide, by decide, by decide,
   C5_delete_per_location ⟨StoreKind.local, 0, [(("a"), 1), (("b"), 2)]⟩
     ⟨PathsField.many [("a"), ("x"), ("b")]⟩ ("x")
     (by decide) (by decide) (by decide)⟩

end RestateObstore
